import Mathlib

/-!
Verification development for the bytom node bootstrap core
(`node/node.go` and the build-request alias filter).

The Go source is shallowly embedded: each Go function relevant to the
properties below is translated into an executable Lean definition over
explicit state (store heights as `Nat`, pin stores as association lists,
listener-binding environments as functions into `Option`), and the
properties are proved about those definitions.
-/

namespace BytomNode

/-! ## Genesis bootstrap (`NewNode`, node.go lines 184-197)

The block store is abstracted as the list of blocks it holds, with
`store.Height()` embedded as the list length and `chain.AddBlock`
as appending a block.  `NewNode` adds the genesis block exactly when
`store.Height() < 1`. -/

structure Block where
  id : Nat
deriving DecidableEq, Repr

def genesisBlock : Block := ⟨0⟩

abbrev BlockStore := List Block

def storeHeight (s : BlockStore) : Nat := s.length

def addBlock (s : BlockStore) (b : Block) : BlockStore := s ++ [b]

/-- The genesis step of `NewNode`: `if store.Height() < 1 { chain.AddBlock(nil, genesisBlock) }`. -/
def genesisBootstrap (s : BlockStore) : BlockStore :=
  if storeHeight s < 1 then addBlock s genesisBlock else s

/-! ## Pin creation (`NewNode`, node.go lines 203-224)

`pin.Store` is embedded as an association list from pin name to height.
The body of `pin.Store.CreatePin` is not part of the given sources, so it
is modelled from the spec.  The pin names come from the `account` package
(also outside the given sources); the spec requires two distinct consumer
names, one for account-relevant block application and one for
spent-output cleanup. -/

abbrev PinMap := List (String × Nat)

/-- Modelled from the spec: the pin name of the account block-application
consumer (`account.PinName`, outside the given sources). -/
def PinName : String := "account"

/-- Modelled from the spec: the pin name of the spent-output cleanup
consumer (`account.DeleteSpentsPinName`, outside the given sources). -/
def DeleteSpentsPinName : String := "delete_account_spents"

/-- Modelled from the spec: `CreatePin(name, initialHeight)` is
idempotent — if a pin with `name` already exists it is a no-op and the
existing height is preserved; otherwise the pin is created at
`initialHeight`.  (`pin.Store.CreatePin` is outside the given sources.) -/
def createPin (ps : PinMap) (name : String) (height : Nat) : PinMap :=
  if (ps.lookup name).isSome then ps else (name, height) :: ps

/-- node.go lines 213-216: `pinHeight := store.Height(); if pinHeight > 0 { pinHeight = pinHeight - 1 }`. -/
def pinInitHeight (h : Nat) : Nat :=
  if h > 0 then h - 1 else h

/-- node.go line 218: `pins := []string{account.PinName, account.DeleteSpentsPinName}`. -/
def walletPins : List String := [PinName, DeleteSpentsPinName]

/-- node.go lines 218-224: the pin-creation loop of `NewNode`'s wallet branch,
run against pin store `ps` with the store height `h`. -/
def walletPinInit (h : Nat) (ps : PinMap) : PinMap :=
  walletPins.foldl (fun m p => createPin m p (pinInitHeight h)) ps

/-! ## Outcome of `NewNode`'s wallet branch (node.go lines 203-224)

The wallet branch can end in three ways: `LoadAll` fails, in which case
the error is logged and `NewNode` returns `nil` (lines 207-211); a
`CreatePin` call fails, in which case `bytomlog.Fatalkv` terminates the
process (lines 220-223); or everything succeeds and construction
proceeds with the initialized pin store. -/

inductive NewNodeOutcome where
  /-- construction proceeds; the wallet pin store holds these pins -/
  | node (pins : PinMap)
  /-- the path where `NewNode` logged the error and returned `nil` (no process exit) -/
  | nilNode
  /-- the process was terminated via `cmn.Exit` / `bytomlog.Fatalkv` -/
  | fatalExit (msg : String)
deriving DecidableEq, Repr

def NewNodeOutcome.isFatal : NewNodeOutcome → Bool
  | .fatalExit _ => true
  | _ => false

/-- The wallet branch of `NewNode`: `loadAll` is the result of
`pinStore.LoadAll(ctx)`, `createPinErr` the first error returned by a
`pinStore.CreatePin` call (if any), `h` the store height. -/
def newNodeWalletStep (loadAll : Except String PinMap) (createPinErr : Option String)
    (h : Nat) : NewNodeOutcome :=
  match loadAll with
  | .error _ => .nilNode
  | .ok ps =>
    match createPinErr with
    | some e => .fatalExit e
    | none => .node (walletPinInit h ps)

/-! ## RPC listener fan-out (`startRPC`, node.go lines 383-417)

Listener binding is abstracted as an environment `bind` mapping each
configured listen address to `some` listener (named by its address) on
success and `none` on bind failure.  The embedding returns, besides the
`Except` result of the call, the list of listeners that were bound and
left running: the source's loop returns `nil, err` at the first failing
bind without closing the listeners bound earlier in the same batch. -/

def splitCommaAux : List Char → List Char → List String
  | [], acc => [String.mk acc.reverse]
  | c :: cs, acc =>
    if c = ',' then String.mk acc.reverse :: splitCommaAux cs []
    else splitCommaAux cs (c :: acc)

/-- Go comma splitting, `strings.Split(s, ",")`: split on every comma; the
empty string yields a singleton holding the empty string. -/
def splitComma (s : String) : List String := splitCommaAux s.data []

/-- The HTTP bind loop of `startRPC` (node.go lines 392-405). -/
def startHTTPListeners (bind : String → Option String) :
    List String → Except String (List String) × List String
  | [] => (.ok [], [])
  | a :: rest =>
    match bind a with
    | none => (.error a, [])
    | some l =>
      match startHTTPListeners bind rest with
      | (.ok ls, running) => (.ok (l :: ls), l :: running)
      | (.error e, running) => (.error e, l :: running)

/-- Embedding of `startRPC` (node.go lines 383-417): bind every comma-separated HTTP
listen address, then the optional gRPC address (`grpcBind` is `some`
listener on success, `none` on failure). -/
def startRPC (bind : String → Option String) (listenAddress : String)
    (grpcListenAddress : String) (grpcBind : Option String) :
    Except String (List String) × List String :=
  match startHTTPListeners bind (splitComma listenAddress) with
  | (.error e, running) => (.error e, running)
  | (.ok ls, running) =>
    if grpcListenAddress ≠ "" then
      match grpcBind with
      | some l => (.ok (ls ++ [l]), running ++ [l])
      | none => (.error grpcListenAddress, running)
    else (.ok ls, running)

/-! ## `Node.OnStart` (node.go lines 303-335)

The environment records the results of the external calls `sw.Start()`
and `DialSeeds` together with the configuration fields read by
`OnStart`; the result records which steps ran and whether
`n.rpcListeners` was assigned. -/

structure StartEnv where
  /-- error of `n.sw.Start()`, if any -/
  swStartErr : Option String
  /-- the field `n.config.P2P.Seeds` -/
  seeds : String
  /-- error of `n.DialSeeds(seeds)`, if any -/
  dialErr : Option String
  /-- the field `n.config.RPC.ListenAddress` -/
  rpcListenAddress : String
  /-- per-address HTTP bind outcome -/
  bind : String → Option String
  /-- the field `n.config.RPC.GRPCListenAddress` -/
  grpcListenAddress : String
  /-- gRPC bind outcome -/
  grpcBind : Option String

structure OnStartResult where
  p2pListenerAdded : Bool
  swStarted : Bool
  dialAttempted : Bool
  /-- the value assigned to `n.rpcListeners`, if the assignment was reached -/
  rpcListeners : Option (List String)
deriving DecidableEq, Repr

/-- The RPC phase of `OnStart` (node.go lines 326-332). -/
def onStartRPCPhase (env : StartEnv) (r : OnStartResult) :
    Except String Unit × OnStartResult :=
  if env.rpcListenAddress ≠ "" then
    match startRPC env.bind env.rpcListenAddress env.grpcListenAddress env.grpcBind with
    | (.ok ls, _) => (.ok (), { r with rpcListeners := some ls })
    | (.error e, _) => (.error e, r)
  else (.ok (), r)

/-- Embedding of `Node.OnStart` (node.go lines 303-335): add the p2p listener, start the
switch, dial seeds when configured (returning the error on failure), then
start the RPC listener set. -/
def OnStart (env : StartEnv) : Except String Unit × OnStartResult :=
  match env.swStartErr with
  | some e => (.error e, ⟨true, false, false, none⟩)
  | none =>
    if env.seeds ≠ "" then
      match env.dialErr with
      | some e => (.error e, ⟨true, true, true, none⟩)
      | none => onStartRPCPhase env ⟨true, true, true, none⟩
    else
      onStartRPCPhase env ⟨true, true, false, none⟩

/-- Binding environment in which `:8002` is already bound by another
process and every other address binds successfully. -/
def bindFailSecond : String → Option String :=
  fun a => if a = ":8002" then none else some a

/-- Environment for `OnStart` in which the switch starts, seeds are configured
and the seed dial fails. -/
def envDialFail : StartEnv :=
  { swStartErr := none
    seeds := "seed1.example.com:46656"
    dialErr := some ("dial tcp: connection refused")
    rpcListenAddress := ":8001"
    bind := fun a => some a
    grpcListenAddress := ""
    grpcBind := none }

/-! ## Construction-time effects of `NewNode` (node.go lines 160-301)

To settle when listeners are bound, the externally visible effects of the
constructor and of `OnStart` are embedded as event lists, in source
order.  `rpcInit` (lines 119-158), called by `NewNode` at line 262, calls
`net.Listen` and starts `server.Serve` in a goroutine — during
construction. -/

inductive NodeEv where
  | eventSwitchStart
  | genesisAdd
  /-- the call `net.Listen` inside `rpcInit` (line 148) -/
  | rpcHttpListen
  /-- the statement starting `server.Serve(listener)` in a goroutine inside `rpcInit` (line 154) -/
  | rpcHttpServe
  /-- the call `coreHandler.Set(h)` (line 157) -/
  | handlerSet
  /-- the call `http.ListenAndServe(profileHost, nil)` (line 282) -/
  | profileListen
  /-- the calls `p2p.NewDefaultListener` and `sw.AddListener` in `OnStart` (lines 306-307) -/
  | p2pListen
  /-- the call `n.sw.Start()` (line 312) -/
  | swStart
  /-- the call `n.DialSeeds(seeds)` (line 321) -/
  | seedDial
  /-- the call `rpcserver.StartHTTPServer` inside `startRPC` (line 400) -/
  | startRPCBind (addr : String)
deriving DecidableEq, Repr

/-- Does the event bind a network listener or begin accepting connections? -/
def NodeEv.isBind : NodeEv → Bool
  | .rpcHttpListen => true
  | .rpcHttpServe => true
  | .profileListen => true
  | .p2pListen => true
  | .startRPCBind _ => true
  | _ => false

/-- Effects of `rpcInit` (node.go lines 119-158), in order. -/
def rpcInitEvents : List NodeEv := [.rpcHttpListen, .rpcHttpServe, .handlerSet]

/-- Effects of `NewNode` (node.go lines 160-301), in order, for a store of
height `h` and profiling host `profileHost` (`config.ProfListenAddress`). -/
def newNodeEvents (h : Nat) (profileHost : String) : List NodeEv :=
  [.eventSwitchStart]
    ++ (if h < 1 then [.genesisAdd] else [])
    ++ rpcInitEvents
    ++ (if profileHost ≠ "" then [.profileListen] else [])

/-- Effects of `Node.OnStart` (node.go lines 303-335), in order, on the
success path. -/
def onStartEvents (seeds rpcAddr : String) : List NodeEv :=
  [.p2pListen, .swStart]
    ++ (if seeds ≠ "" then [.seedDial] else [])
    ++ (if rpcAddr ≠ "" then (splitComma rpcAddr).map .startRPCBind else [])

/-! ## Build-request alias resolution (`filterAliases`, part_000 lines 23-46)

A build-request action is a JSON object; the embedding keeps one field per
map key the source reads or writes, with `""` standing for an absent key
(matching `m["k"].(string)` on a missing key).  Note the field
`asssetIdKey`: the source's presence check at line 25 reads the key
`"assset_id"` (three `s`), not `"asset_id"`, which is the key it writes at
line 32. -/

structure Action where
  /-- value at key `"assset_id"` — the misspelled key the presence check reads -/
  asssetIdKey : String
  /-- value at key `"asset_id"` — the key written on successful resolution -/
  assetId : String
  /-- value at key `"asset_alias"` -/
  assetAlias : String
  /-- value at key `"account_id"` -/
  accountId : String
  /-- value at key `"account_alias"` -/
  accountAlias : String
deriving DecidableEq, Repr

/-- Alias-resolution environment: `assets.FindByAlias` and
`accounts.FindByAlias`, returning the resolved ID on success. -/
structure AliasEnv where
  assetsByAlias : String → Option String
  accountsByAlias : String → Option String

/-- A structured resolution error carrying the offending alias and the
index of the offending action, as produced by `errors.WithDetailf`
(part_000 lines 30 and 40). -/
inductive AliasErr where
  | invalidAssetAlias (al : String) (idx : Nat)
  | invalidAccountAlias (al : String) (idx : Nat)
deriving DecidableEq, Repr

/-- part_000 lines 25-33: the asset branch of the loop body for action `m`
at index `i`.  Returns the error (if any) and the action as left in the
request (the source mutates the map in place). -/
def resolveAssetPart (env : AliasEnv) (i : Nat) (m : Action) : Option AliasErr × Action :=
  if m.asssetIdKey = "" ∧ m.assetAlias ≠ "" then
    match env.assetsByAlias m.assetAlias with
    | none => (some (.invalidAssetAlias m.assetAlias i), m)
    | some aid => (none, { m with assetId := aid })
  else (none, m)

/-- part_000 lines 35-43: the account branch of the loop body. -/
def resolveAccountPart (env : AliasEnv) (i : Nat) (m : Action) : Option AliasErr × Action :=
  if m.accountId = "" ∧ m.accountAlias ≠ "" then
    match env.accountsByAlias m.accountAlias with
    | none => (some (.invalidAccountAlias m.accountAlias i), m)
    | some acc => (none, { m with accountId := acc })
  else (none, m)

/-- The loop body of `filterAliases` for one action. -/
def resolveAction (env : AliasEnv) (i : Nat) (m : Action) : Option AliasErr × Action :=
  match resolveAssetPart env i m with
  | (some e, m1) => (some e, m1)
  | (none, m1) => resolveAccountPart env i m1

/-- The loop of `filterAliases` (part_000 lines 24-44) starting at index
`i`: on the first error the loop exits, leaving the remaining actions
untouched; actions already processed keep their mutations. -/
def filterAliasesAux (env : AliasEnv) (i : Nat) :
    List Action → Option AliasErr × List Action
  | [] => (none, [])
  | m :: rest =>
    match resolveAction env i m with
    | (some e, m1) => (some e, m1 :: rest)
    | (none, m1) =>
      match filterAliasesAux env (i + 1) rest with
      | (r, rest1) => (r, m1 :: rest1)

/-- Embedding of `filterAliases` (part_000 lines 23-46) over the request's action list,
returning the error (if any) and the action list as left in the request. -/
def filterAliases (env : AliasEnv) (actions : List Action) :
    Option AliasErr × List Action :=
  filterAliasesAux env 0 actions

/-- Concrete resolution environment: no asset aliases resolve; the account
alias `"alice"` resolves to `"acc123"`. -/
def envUnknownAsset : AliasEnv :=
  ⟨fun _ => none, fun a => if a = "alice" then some ("acc123") else none⟩

/-- A build-request action referencing the (unknown) asset alias `"gold"`. -/
def actUnknownAsset : Action := ⟨"", "", "gold", "", ""⟩

/-- A build-request action referencing the valid account alias `"alice"`. -/
def actValidAccount : Action := ⟨"", "", "", "", "alice"⟩

/-- Concrete resolution environment in which the asset alias `"gold"`
resolves to `"NEWID"` and no account alias resolves. -/
def envTypoCheck : AliasEnv :=
  ⟨fun a => if a = "gold" then some ("NEWID") else none, fun _ => none⟩

/-- An action that already carries the non-empty `"asset_id"` value
`"OLDID"` along with the alias `"gold"`, and a non-empty `"account_id"`
alongside the account alias `"bob"`. -/
def actTypoCheck : Action := ⟨"", "OLDID", "gold", "acc1", "bob"⟩

/-! ## The two-phase RPC handler gate (`waitHandler`, node.go lines 104-117)

`waitHandler` holds a handler field `h` and a `sync.WaitGroup` whose
counter is 1 until `Set` runs.  `ServeHTTP` does `wg.Wait()` and then
dispatches to `wh.h`; `Set(h)` writes `wh.h = h` and then `wg.Done()`.
The embedding is a labeled transition system over the gate state: the
handler field (`none` while unset), whether the WaitGroup counter has
reached zero (`gateOpen`), and the multiset of requests blocked in
`wg.Wait()`.  The `set` step writes the handler and opens the gate in one
step, reflecting the happens-before edge from the write of `wh.h` before
`wg.Done()` to any `wg.Wait()` that returns; a `dispatch` step forwards a
waiting request to whatever the handler field currently holds, and is
enabled only once the gate is open (`wg.Wait()` has returned).  `Set` is
called once (a second `wg.Done()` would panic), so the `set` step
requires a closed gate. -/

structure GateSt (H R : Type) where
  /-- the field `wh.h`: the dispatch target, `none` while unset -/
  handler : Option H
  /-- whether `wh.wg`'s counter has reached zero -/
  gateOpen : Bool
  /-- requests that have arrived and are blocked in `wg.Wait()` -/
  waiting : List R

/-- The gate as constructed by `rpcInit` (lines 122-123): no handler,
WaitGroup counter 1, no requests yet. -/
def initGate (H R : Type) : GateSt H R := ⟨none, false, []⟩

inductive GateEvent (H R : Type) where
  /-- a request arrives and enters `wg.Wait()` -/
  | arrive (r : R)
  /-- the call `Set(h)`: write `wh.h = h`, then `wg.Done()` -/
  | set (h : H)
  /-- the event where `wg.Wait()` returns for request `r` and `wh.h.ServeHTTP`
  is invoked on `target` -/
  | dispatch (r : R) (target : Option H)
deriving DecidableEq

inductive GateStep {H R : Type} [DecidableEq R] :
    GateSt H R → GateEvent H R → GateSt H R → Prop where
  | arrive (s : GateSt H R) (r : R) :
      GateStep s (.arrive r) ⟨s.handler, s.gateOpen, r :: s.waiting⟩
  | set (s : GateSt H R) (h : H) :
      s.gateOpen = false →
      GateStep s (.set h) ⟨some h, true, s.waiting⟩
  | dispatch (s : GateSt H R) (r : R) :
      s.gateOpen = true → r ∈ s.waiting →
      GateStep s (.dispatch r s.handler) ⟨s.handler, s.gateOpen, s.waiting.erase r⟩

/-- An interleaving of gate events: `GateTrace s tr s2` means the event
sequence `tr` can take the gate from state `s` to state `s2`. -/
inductive GateTrace {H R : Type} [DecidableEq R] :
    GateSt H R → List (GateEvent H R) → GateSt H R → Prop where
  | nil (s : GateSt H R) : GateTrace s [] s
  | cons {s s1 s2 : GateSt H R} {e : GateEvent H R} {es : List (GateEvent H R)} :
      GateStep s e s1 → GateTrace s1 es s2 → GateTrace s (e :: es) s2

/-- A concrete interleaving: request 1 arrives before `Set`, request 2
after; request 2 is dispatched to the installed handler. -/
def gateTraceEx : List (GateEvent Nat Nat) :=
  [.arrive 1, .set 7, .arrive 2, .dispatch 2 (some 7)]

/-- The final state of `gateTraceEx`: handler installed, gate open,
request 1 still waiting. -/
def gateFinalEx : GateSt Nat Nat := ⟨some 7, true, [1]⟩

end BytomNode

namespace BytomNode

/-! ## Theorems: genesis bootstrap (C4) -/

/-- **C4.** Node construction appends the genesis block to the chain iff the
store's recorded height is below 1; a second construction against the
resulting store never adds a second genesis block, so the store height after
the second construction equals the height after the first. -/
theorem genesisBootstrap_iff_and_idempotent (s : BlockStore) :
    (storeHeight s < 1 → genesisBootstrap s = addBlock s genesisBlock) ∧
    (1 ≤ storeHeight s → genesisBootstrap s = s) ∧
    genesisBootstrap (genesisBootstrap s) = genesisBootstrap s ∧
    storeHeight (genesisBootstrap (genesisBootstrap s)) =
      storeHeight (genesisBootstrap s) := by
  unfold genesisBootstrap addBlock storeHeight
  rcases s with _ | ⟨b, rest⟩ <;> simp

/-- Witness for C4 at the empty store: height is 0 < 1, the genesis block is
appended, and a second construction leaves the store unchanged. -/
theorem genesisBootstrap_iff_and_idempotent_witness :
    genesisBootstrap [] = addBlock [] genesisBlock ∧
    genesisBootstrap (genesisBootstrap []) = genesisBootstrap [] :=
  ⟨(genesisBootstrap_iff_and_idempotent []).1 (by decide),
   (genesisBootstrap_iff_and_idempotent []).2.2.1⟩

/-! ## Theorems: wallet pin initialization (C5) -/

/-- **C5.** When wallet features are enabled, node construction against a
fresh pin store creates exactly two pins — the account block-application pin
and the spent-output cleanup pin — each at initial height
`store.Height() - 1` when the height is positive and `0` otherwise,
i.e. `max(store.Height() - 1, 0)`. -/
theorem walletPinInit_two_pins (h : Nat) :
    (walletPinInit h []).lookup PinName = some (pinInitHeight h) ∧
    (walletPinInit h []).lookup DeleteSpentsPinName = some (pinInitHeight h) ∧
    (walletPinInit h []).length = 2 ∧
    (pinInitHeight h : Int) = max ((h : Int) - 1) 0 := by
  refine ⟨?_, ?_, ?_, ?_⟩
  · simp [walletPinInit, walletPins, createPin, PinName, DeleteSpentsPinName, List.lookup]
  · simp [walletPinInit, walletPins, createPin, PinName, DeleteSpentsPinName, List.lookup]
  · simp [walletPinInit, walletPins, createPin, PinName, DeleteSpentsPinName, List.lookup]
  · unfold pinInitHeight
    split
    · rw [max_eq_left (by omega)]
      omega
    · have h0 : h = 0 := by omega
      subst h0
      decide

/-- Witness for C5 at store height 50 (the spec's scenario): both pins are
created at height 49. -/
theorem walletPinInit_two_pins_witness :
    (walletPinInit 50 []).lookup PinName = some (pinInitHeight 50) ∧
    (pinInitHeight 50 : Int) = max ((50 : Int) - 1) 0 :=
  ⟨(walletPinInit_two_pins 50).1, (walletPinInit_two_pins 50).2.2.2⟩

/-! ## Theorems: CreatePin idempotence (C6) -/

/-- **C6.** `CreatePin` is idempotent: for every pin store, pin name and pair
of heights, a second `CreatePin` with the same name is a no-op and leaves the
pin at the height established by the first call, not at the second call's
argument. -/
theorem createPin_idempotent (ps : PinMap) (name : String) (h1 h2 : Nat) :
    createPin (createPin ps name h1) name h2 = createPin ps name h1 ∧
    (ps.lookup name = none →
      (createPin (createPin ps name h1) name h2).lookup name = some h1) := by
  by_cases hc : (ps.lookup name).isSome
  · constructor
    · simp [createPin, hc]
    · intro hnone
      rw [hnone] at hc
      simp at hc
  · have hstep : createPin ps name h1 = (name, h1) :: ps := by
      simp [createPin, hc]
    have hlook : ((name, h1) :: ps).lookup name = some h1 := by
      simp [List.lookup]
    constructor
    · rw [hstep]
      simp [createPin, hlook]
    · intro _
      rw [hstep]
      simp [createPin, hlook]

/-- Witness for C6: creating the pin `"account"` at height 5 and again at
height 9 leaves it at height 5. -/
theorem createPin_idempotent_witness :
    createPin (createPin [] "account" 5) "account" 9 = createPin [] "account" 5 ∧
    (createPin (createPin [] "account" 5) "account" 9).lookup ("account") = some 5 :=
  ⟨(createPin_idempotent [] "account" 5 9).1,
   (createPin_idempotent [] "account" 5 9).2 rfl⟩

/-! ## Theorems: LoadAll failure (C7) -/

/-- **C7 counterexample.** At a concrete failing `LoadAll`, `NewNode` does
not terminate the process: it logs the error and returns `nil` (the outcome
is `nilNode`, not `fatalExit`), refuting the claim that a `LoadAll` failure
terminates the process immediately. -/
theorem newNode_loadAll_failure_no_exit_cex :
    newNodeWalletStep (.error ("pin db read failed")) none 5 = NewNodeOutcome.nilNode ∧
    (newNodeWalletStep (.error ("pin db read failed")) none 5).isFatal = false :=
  ⟨rfl, rfl⟩

/-- **C7 (amended).** A failure of `PinStore.LoadAll` during node
construction aborts construction: the error is logged and `NewNode` returns
`nil`, so no node is produced and wallet indexing is never enabled — but the
process is not terminated immediately (unlike a `CreatePin` failure, which
calls `Fatalkv`). -/
theorem newNode_loadAll_failure_returns_nil (e : String) (cperr : Option String) (h : Nat) :
    newNodeWalletStep (.error e) cperr h = NewNodeOutcome.nilNode ∧
    (newNodeWalletStep (.error e) cperr h).isFatal = false ∧
    newNodeWalletStep (.ok []) (some e) h = NewNodeOutcome.fatalExit e := by
  constructor
  · rfl
  · constructor
    · rfl
    · rfl

/-! ## Theorems: RPC listener fan-out (C2) -/

/-- **C2 (code bug).** With addresses `:8001,:8002` configured and `:8002`
already bound by another process, `startRPC` returns an error — but the
listener bound on `:8001` in the same call is left running, never closed:
the partial listener set the spec forbids. -/
theorem startRPC_bind_failure_leaves_listener_running :
    startRPC bindFailSecond (":8001,:8002") "" none =
      (Except.error (":8002"), [":8001"]) := by
  rfl

/-! ## Theorems: seed dial failure (C3) -/

/-- **C3 counterexample.** At a concrete environment in which the switch
starts and the configured seed dial fails, `OnStart` returns the dial error
and never reaches the RPC phase (`rpcListeners` is not assigned), refuting
the claim that a seed-dial failure is merely logged and startup proceeds to
the RPC listener set. -/
theorem onStart_dial_failure_aborts_cex :
    OnStart envDialFail =
      (Except.error ("dial tcp: connection refused"), ⟨true, true, true, none⟩) := by
  rfl

/-- **C3 (amended).** During `Node.OnStart`, a failure while dialing the
configured seed peers aborts startup: the error is returned to the caller
and the RPC listener set is not started. -/
theorem onStart_dial_failure_aborts (env : StartEnv) (e : String)
    (hsw : env.swStartErr = none) (hseeds : env.seeds ≠ "")
    (hdial : env.dialErr = some e) :
    OnStart env = (Except.error e, ⟨true, true, true, none⟩) := by
  simp [OnStart, hsw, hseeds, hdial]

/-- Witness for C3: the amended theorem applied at the concrete failing
environment. -/
theorem onStart_dial_failure_aborts_witness :
    envDialFail.swStartErr = none ∧ envDialFail.seeds ≠ "" ∧
    OnStart envDialFail =
      (Except.error ("dial tcp: connection refused"), ⟨true, true, true, none⟩) :=
  ⟨rfl, by decide,
   onStart_dial_failure_aborts envDialFail ("dial tcp: connection refused") rfl (by decide) rfl⟩

/-! ## Theorems: constructor network reachability (C8) -/

/-- **C8 counterexample.** At a concrete configuration (fresh store, no
profiling host), the constructor's effect list contains listener-binding
events — `rpcInit` binds the RPC HTTP listener and starts serving on it —
refuting the claim that no listener is bound before the explicit start
call. -/
theorem newNode_binds_listener_cex :
    (newNodeEvents 0 "").filter NodeEv.isBind =
      [NodeEv.rpcHttpListen, NodeEv.rpcHttpServe] := by
  rfl

/-- **C8 (amended).** The constructor completes the non-network wiring but
additionally binds the RPC HTTP listener and begins serving on it (through
`rpcInit`); the p2p listener, the switch start and the `startRPC` listener
batch happen only in `OnStart`. -/
theorem newNode_binds_rpc_listener (h : Nat) (profileHost seeds rpcAddr : String) :
    NodeEv.rpcHttpListen ∈ newNodeEvents h profileHost ∧
    NodeEv.rpcHttpServe ∈ newNodeEvents h profileHost ∧
    NodeEv.p2pListen ∉ newNodeEvents h profileHost ∧
    NodeEv.swStart ∉ newNodeEvents h profileHost ∧
    (∀ a, NodeEv.startRPCBind a ∉ newNodeEvents h profileHost) ∧
    NodeEv.p2pListen ∈ onStartEvents seeds rpcAddr := by
  by_cases hg : h < 1 <;> by_cases hp : profileHost = "" <;>
    simp [newNodeEvents, rpcInitEvents, onStartEvents, hg, hp]

/-- Witness for C8: the amended theorem at a fresh store with no profiling
host and empty start configuration. -/
theorem newNode_binds_rpc_listener_witness :
    NodeEv.rpcHttpListen ∈ newNodeEvents 0 "" ∧
    NodeEv.p2pListen ∉ newNodeEvents 0 "" :=
  ⟨(newNode_binds_rpc_listener 0 "" "" "").1,
   (newNode_binds_rpc_listener 0 "" "" "").2.2.1⟩

/-! ## Theorems: alias-resolution failure (C9) -/

/-- **C9.** For a build request whose first action references an unknown
asset alias (with the asset-id key absent) and whose second action
references a valid account alias, `filterAliases` returns an error naming
the unknown alias and that action's index, and the valid account-alias
action is left exactly as it was in the returned output. -/
theorem filterAliases_unknown_asset_alias
    (env : AliasEnv) (a0 a1 : Action) (acc : String)
    (h1 : a0.asssetIdKey = "") (h2 : a0.assetAlias ≠ "")
    (h3 : env.assetsByAlias a0.assetAlias = none)
    (h4 : a1.accountAlias ≠ "")
    (h5 : env.accountsByAlias a1.accountAlias = some acc) :
    filterAliases env [a0, a1] =
      (some (AliasErr.invalidAssetAlias a0.assetAlias 0), [a0, a1]) := by
  simp [filterAliases, filterAliasesAux, resolveAction, resolveAssetPart, h1, h2, h3]

/-- Witness for C9: the unknown asset alias `"gold"` on action 0 and the
valid account alias `"alice"` on action 1. -/
theorem filterAliases_unknown_asset_alias_witness :
    filterAliases envUnknownAsset [actUnknownAsset, actValidAccount] =
      (some (AliasErr.invalidAssetAlias ("gold") 0), [actUnknownAsset, actValidAccount]) :=
  filterAliases_unknown_asset_alias envUnknownAsset actUnknownAsset actValidAccount
    ("acc123") rfl (by decide) rfl (by decide) rfl

/-! ## Theorems: the misspelled presence check (C10) -/

/-- **C10.** In `filterAliases`, an action with a non-empty
`"asset_alias"` undergoes asset-alias resolution — overwriting
`"asset_id"` on success — even when it already carries a non-empty
`"asset_id"`, because the presence check reads the key `"assset_id"`; by
contrast, an action with a non-empty `"account_id"` skips account-alias
resolution (its account alias is never looked up). -/
theorem filterAliases_misspelled_presence_check
    (env : AliasEnv) (m : Action) (aid : String)
    (h1 : m.asssetIdKey = "") (h2 : m.assetAlias ≠ "") (h3 : m.assetId ≠ "")
    (h4 : env.assetsByAlias m.assetAlias = some aid)
    (h5 : m.accountId ≠ "") :
    filterAliases env [m] = (none, [{ m with assetId := aid }]) := by
  simp [filterAliases, filterAliasesAux, resolveAction, resolveAssetPart,
    resolveAccountPart, h1, h2, h3, h4, h5]

/-- Witness for C10: the action carries `asset_id = "OLDID"` yet its alias
`"gold"` is still resolved and overwrites it with `"NEWID"`, while its
non-empty `account_id` makes the (unresolvable) account alias `"bob"` be
skipped without error. -/
theorem filterAliases_misspelled_presence_check_witness :
    filterAliases envTypoCheck [actTypoCheck] =
      (none, [{ actTypoCheck with assetId := "NEWID" }]) :=
  filterAliases_misspelled_presence_check envTypoCheck actTypoCheck ("NEWID")
    rfl (by decide) (by decide) rfl (by decide)

/-! ## Theorems: the waitHandler gate (C1) -/

section GateLemmas

variable {H R : Type} [DecidableEq R]

lemma gateStep_preserves_open {s s1 : GateSt H R} {e : GateEvent H R}
    (hst : GateStep s e s1) (hopen : s.gateOpen = true) :
    s1.gateOpen = true ∧ s1.handler = s.handler := by
  cases hst with
  | arrive _ => exact ⟨hopen, rfl⟩
  | set _ hc => rw [hopen] at hc; cases hc
  | dispatch _ _ _ => exact ⟨hopen, rfl⟩

lemma gateStep_dispatch_inv {s s1 : GateSt H R} {r : R} {t : Option H}
    (hst : GateStep s (.dispatch r t) s1) :
    s.gateOpen = true ∧ t = s.handler ∧ r ∈ s.waiting := by
  cases hst with
  | dispatch _ h1 h2 => exact ⟨h1, rfl, h2⟩

lemma gateTrace_stable {s s2 : GateSt H R} {tr : List (GateEvent H R)}
    (htr : GateTrace s tr s2) :
    s.gateOpen = true → s2.gateOpen = true ∧ s2.handler = s.handler := by
  induction htr with
  | nil _ => intro hopen; exact ⟨hopen, rfl⟩
  | cons hst _ ih =>
    intro hopen
    obtain ⟨ho1, hh1⟩ := gateStep_preserves_open hst hopen
    obtain ⟨ho2, hh2⟩ := ih ho1
    exact ⟨ho2, hh2.trans hh1⟩

lemma gateTrace_no_set_after_open {s s2 : GateSt H R} {tr : List (GateEvent H R)}
    (htr : GateTrace s tr s2) :
    s.gateOpen = true → ∀ h : H, GateEvent.set h ∉ tr := by
  induction htr with
  | nil _ => intro _ h hmem; cases hmem
  | cons hst _ ih =>
    intro hopen h hmem
    cases hmem with
    | head =>
      cases hst with
      | set _ hc => rw [hopen] at hc; cases hc
    | tail _ hmem2 =>
      exact ih (gateStep_preserves_open hst hopen).1 h hmem2

lemma gateTrace_dispatch_target_after_open {s s2 : GateSt H R}
    {tr : List (GateEvent H R)} (htr : GateTrace s tr s2) :
    s.gateOpen = true →
      ∀ (r : R) (t : Option H), GateEvent.dispatch r t ∈ tr → t = s.handler := by
  induction htr with
  | nil _ => intro _ r t hmem; cases hmem
  | cons hst _ ih =>
    intro hopen r t hmem
    cases hmem with
    | head => exact (gateStep_dispatch_inv hst).2.1
    | tail _ hmem2 =>
      obtain ⟨ho1, hh1⟩ := gateStep_preserves_open hst hopen
      exact (ih ho1 r t hmem2).trans hh1

lemma gateTrace_closed_dispatch {s s2 : GateSt H R} {tr : List (GateEvent H R)}
    (htr : GateTrace s tr s2) :
    s.gateOpen = false →
      ∀ (r : R) (t : Option H), GateEvent.dispatch r t ∈ tr →
        ∃ h : H, t = some h ∧ GateEvent.set h ∈ tr := by
  induction htr with
  | nil _ => intro _ r t hmem; cases hmem
  | cons hst htl ih =>
    intro hclosed r t hmem
    cases hmem with
    | head =>
      have hop := (gateStep_dispatch_inv hst).1
      rw [hclosed] at hop; cases hop
    | tail _ hmem2 =>
      cases hst with
      | arrive _ =>
        obtain ⟨h, ht, hset⟩ := ih hclosed r t hmem2
        exact ⟨h, ht, List.mem_cons_of_mem _ hset⟩
      | set h0 _ =>
        have htarget := gateTrace_dispatch_target_after_open htl rfl r t hmem2
        exact ⟨h0, htarget, List.mem_cons_self _ _⟩
      | dispatch _ hop _ => rw [hclosed] at hop; cases hop

lemma gateTrace_set_unique {s s2 : GateSt H R} {tr : List (GateEvent H R)}
    (htr : GateTrace s tr s2) :
    s.gateOpen = false →
      ∀ h1 h2 : H, GateEvent.set h1 ∈ tr → GateEvent.set h2 ∈ tr → h1 = h2 := by
  induction htr with
  | nil _ => intro _ h1 h2 hm1 _; cases hm1
  | cons hst htl ih =>
    intro hclosed h1 h2 hm1 hm2
    cases hst with
    | arrive _ =>
      cases hm1 with
      | tail _ hm1a =>
        cases hm2 with
        | tail _ hm2a => exact ih hclosed h1 h2 hm1a hm2a
    | set h0 _ =>
      have hnoset := gateTrace_no_set_after_open htl rfl
      cases hm1 with
      | head =>
        cases hm2 with
        | head => rfl
        | tail _ hm2a => exact absurd hm2a (hnoset h2)
      | tail _ hm1a => exact absurd hm1a (hnoset h1)
    | dispatch _ hop _ => rw [hclosed] at hop; cases hop

lemma gateTrace_set_reached {s s2 : GateSt H R} {tr : List (GateEvent H R)}
    (htr : GateTrace s tr s2) :
    s.gateOpen = false →
      ∀ h0 : H, GateEvent.set h0 ∈ tr →
        s2.gateOpen = true ∧ s2.handler = some h0 := by
  induction htr with
  | nil _ => intro _ h0 hm; cases hm
  | cons hst htl ih =>
    intro hclosed h0 hm
    cases hst with
    | arrive _ =>
      cases hm with
      | tail _ hm2 => exact ih hclosed h0 hm2
    | set he _ =>
      cases hm with
      | head => exact gateTrace_stable htl rfl
      | tail _ hm2 =>
        exact absurd hm2 (gateTrace_no_set_after_open htl rfl h0)
    | dispatch _ hop _ => rw [hclosed] at hop; cases hop

lemma gateTrace_open_implies_set {s s2 : GateSt H R} {tr : List (GateEvent H R)}
    (htr : GateTrace s tr s2) :
    s.gateOpen = false → s2.gateOpen = true →
      ∃ h : H, GateEvent.set h ∈ tr := by
  induction htr with
  | nil _ => intro hc ho; rw [hc] at ho; cases ho
  | cons hst _ ih =>
    intro hclosed hopen2
    cases hst with
    | arrive _ =>
      obtain ⟨h, hm⟩ := ih hclosed hopen2
      exact ⟨h, List.mem_cons_of_mem _ hm⟩
    | set h0 _ => exact ⟨h0, List.mem_cons_self _ _⟩
    | dispatch _ hop _ => rw [hclosed] at hop; cases hop

lemma gateTrace_append {s s2 : GateSt H R} {l1 l2 : List (GateEvent H R)}
    (htr : GateTrace s (l1 ++ l2) s2) :
    ∃ smid, GateTrace s l1 smid ∧ GateTrace smid l2 s2 := by
  induction l1 generalizing s with
  | nil => exact ⟨s, GateTrace.nil s, htr⟩
  | cons e es ih =>
    cases htr with
    | cons hst htl =>
      obtain ⟨smid, htr1, htr2⟩ := ih htl
      exact ⟨smid, GateTrace.cons hst htr1, htr2⟩

end GateLemmas

/-- **C1.** In every interleaving of requests and `Set` on the gate that
contains a `Set(h0)` event: every dispatched request is dispatched to
`some h0` — never to a nil/unset handler — and every dispatch occurs
after the `Set` event; moreover the final state has the gate open with
handler `h0` immutably installed, and every still-waiting request can be
dispatched to `h0` (requests block until `Set` and complete after it). -/
theorem waitHandler_gate_correct {H R : Type} [DecidableEq R]
    (tr : List (GateEvent H R)) (s : GateSt H R)
    (htr : GateTrace (initGate H R) tr s)
    (h0 : H) (hset : GateEvent.set h0 ∈ tr) :
    (∀ (r : R) (t : Option H), GateEvent.dispatch r t ∈ tr → t = some h0) ∧
    (∀ (l1 l2 : List (GateEvent H R)) (r : R) (t : Option H),
      tr = l1 ++ GateEvent.dispatch r t :: l2 → GateEvent.set h0 ∈ l1) ∧
    s.handler = some h0 ∧ s.gateOpen = true ∧
    (∀ r : R, r ∈ s.waiting →
      ∃ s1, GateStep s (GateEvent.dispatch r (some h0)) s1) := by
  have hclosed : (initGate H R).gateOpen = false := rfl
  obtain ⟨hopen2, hhandler⟩ := gateTrace_set_reached htr hclosed h0 hset
  refine ⟨?_, ?_, hhandler, hopen2, ?_⟩
  · intro r t hmem
    obtain ⟨h, ht, hseth⟩ := gateTrace_closed_dispatch htr hclosed r t hmem
    rw [ht, gateTrace_set_unique htr hclosed h h0 hseth hset]
  · intro l1 l2 r t heq
    subst heq
    obtain ⟨smid, htr1, htr2⟩ := gateTrace_append htr
    have hopenmid : smid.gateOpen = true := by
      cases htr2 with
      | cons hst _ => exact (gateStep_dispatch_inv hst).1
    obtain ⟨h, hm1⟩ := gateTrace_open_implies_set htr1 hclosed hopenmid
    have : h = h0 :=
      gateTrace_set_unique htr hclosed h h0 (List.mem_append_left _ hm1) hset
    rw [← this]
    exact hm1
  · intro r hr
    exact ⟨⟨s.handler, s.gateOpen, s.waiting.erase r⟩,
      hhandler ▸ GateStep.dispatch s r hopen2 hr⟩

/-- Witness for C1: the concrete interleaving `gateTraceEx` — one request
held before `Set(7)`, one arriving after — dispatches only to handler 7
and ends with the handler installed. -/
theorem waitHandler_gate_correct_witness :
    (∀ (r : Nat) (t : Option Nat),
      GateEvent.dispatch r t ∈ gateTraceEx → t = some 7) ∧
    gateFinalEx.handler = some 7 ∧ gateFinalEx.gateOpen = true :=
  have htr : GateTrace (initGate Nat Nat) gateTraceEx gateFinalEx :=
    GateTrace.cons (GateStep.arrive _ 1)
      (GateTrace.cons (GateStep.set _ 7 rfl)
        (GateTrace.cons (GateStep.arrive _ 2)
          (GateTrace.cons (GateStep.dispatch _ 2 rfl (by decide))
            (GateTrace.nil _))))
  have hmain := waitHandler_gate_correct gateTraceEx gateFinalEx htr 7 (by decide)
  ⟨hmain.1, hmain.2.2.1, hmain.2.2.2.1⟩

end BytomNode
